import Mathlib

/-!
Shallow embedding of the realtime room-synchronization layer of the
vortex-mobile chat client, together with theorems checking the
natural-language specification against it.

The embedded code lives in:
* `hooks/useSocialChat` (src/unnamed/part_008): `fetchMessages`, the
  realtime row-insert / typing / presence handlers, `sendMessage`;
* `screens/SocialChatScreen.tsx`: `detectAiTrigger`, `handleAiResponse`,
  `handleSend`, `renderMessage`'s sender-name fallback;
* `components/GlobalChatListener.tsx`: the global notification handler.

Strings are modelled through their character lists (`String.data`); the
JavaScript string operations used by the source (`trim`, `startsWith`,
`substring`, `toLowerCase`, `slice`) are reproduced as executable list
functions.  Timestamps (`created_at`, a server-assigned creation time)
are modelled as `Nat`.  Asynchronous network effects are made explicit:
a fallible call takes the backend's answer (error or data) as an
argument, and the value returned by the embedded function records what
was published, what was surfaced and what was left unchanged.
-/

/-- JavaScript-style whitespace test used by `String.prototype.trim`
(restricted to the common ASCII whitespace characters). -/
def isWS (c : Char) : Bool :=
  c == ' ' || c == '\t' || c == '\n' || c == '\r'

/-- Trim on character lists: drop whitespace from both ends. -/
def trimList (l : List Char) : List Char :=
  ((l.dropWhile isWS).reverse.dropWhile isWS).reverse

/-- Embedding of JavaScript `s.trim()`. -/
def trimStr (s : String) : String :=
  String.mk (trimList s.data)

/-- Embedding of JavaScript `s.toLowerCase()` (ASCII case folding). -/
def toLowerStr (s : String) : String :=
  String.mk (s.data.map Char.toLower)

/-- Bool-valued test that the character list `p` is an initial segment
of `l`; embeds JavaScript `l.startsWith(p)`. -/
def startsWithList (p l : List Char) : Bool :=
  match p, l with
  | [], _ => true
  | _ :: _, [] => false
  | c :: cs, d :: ds => c == d && startsWithList cs ds

/-- Test that a string starts with a given character (the source checks
`content.startsWith('🤖')` for the one-character bot sentinel). -/
def startsWithChar (s : String) (c : Char) : Bool :=
  match s.data with
  | [] => false
  | a :: _ => a == c

/-- Embedding of JavaScript `s.substring(n)` (drop the first `n`
characters). -/
def dropStr (s : String) (n : Nat) : String :=
  String.mk (s.data.drop n)

/-- Embedding of JavaScript `s.slice(0, n)` (keep the first `n`
characters). -/
def takeStr (s : String) (n : Nat) : String :=
  String.mk (s.data.take n)

/-- Remove the first occurrence of `'@'`; embeds the source's
`trigger.replace('@', '')` (JS `replace` with a string pattern replaces
only the first occurrence). -/
def removeFirstAtList : List Char → List Char
  | [] => []
  | c :: cs => if c == '@' then cs else c :: removeFirstAtList cs

/-- Embedding of the JavaScript idiom `a || b` on an optional string:
`none` and the empty string are falsy and select the default. -/
def jsOr (o : Option String) (d : String) : String :=
  match o with
  | some s => if s = "" then d else s
  | none => d

/-- Strict lexicographic comparison of character lists (used to
tie-break equal timestamps by message id). -/
def charListLt : List Char → List Char → Bool
  | [], [] => false
  | [], _ :: _ => true
  | _ :: _, [] => false
  | c :: cs, d :: ds =>
    if c < d then true
    else if d < c then false
    else charListLt cs ds

/-- Strict lexicographic order on strings via their character lists. -/
def strLtb (a b : String) : Bool :=
  charListLt a.data b.data

/-! ## Data model (tables `profiles`, `messages`, `rooms`)  -/

/-- A row of the `profiles` table as selected by the client
(`username, avatar_url`). -/
structure Profile where
  username : String
  avatar_url : Option String
deriving DecidableEq

/-- A row of the `messages` table, together with the optional joined /
separately-fetched author profile (`Message` interface in
`useSocialChat`).  `created_at` is the server-assigned creation
timestamp. -/
structure Message where
  id : String
  room_id : String
  user_id : String
  content : String
  created_at : Nat
  profiles : Option Profile
deriving DecidableEq

/-- A row of the `rooms` table as used by the listener and room list. -/
structure Room where
  id : String
  name : String
deriving DecidableEq

/-- An entry of the per-room typing set (`TypingUser` interface). -/
structure TypingUser where
  userId : String
  username : String
deriving DecidableEq

/-- An entry of the per-room presence set (`PresenceUser` interface). -/
structure PresenceUser where
  user_id : String
  online_at : Nat
  username : Option String
deriving DecidableEq

/-- The `(created_at, id)` sort key order on messages: earlier
timestamp first, id as a tie-break. -/
def msgKeyLtb (a b : Message) : Bool :=
  a.created_at < b.created_at ||
    (a.created_at == b.created_at && strLtb a.id b.id)

/-- A message list is sorted when each adjacent pair is strictly
increasing in the `(created_at, id)` key. -/
def sortedByKey : List Message → Bool
  | [] => true
  | [_] => true
  | a :: b :: rest => msgKeyLtb a b && sortedByKey (b :: rest)

/-- Duplicate-freedom of the ids of a message list. -/
def messageIdsNodup (l : List Message) : Prop :=
  (l.map Message.id).Nodup

/-! ## Per-Room Session state (`useSocialChat`) -/

/-- The in-memory state of one open room: the three `useState` cells
`messages`, `typingUsers`, `onlineUsers` of `useSocialChat`. -/
structure SessionState where
  messages : List Message
  typingUsers : List TypingUser
  onlineUsers : List PresenceUser
deriving DecidableEq

/-- The three event classes delivered by the room's realtime channel.
A `rowInsert` carries the inserted row (`payload.new`) plus the result
of the handler's best-effort profile fetch for the author. -/
inductive ChannelEvent where
  | rowInsert (payload : Message) (profile : Option Profile)
  | typing (userId : String) (username : String) (isTyping : Bool)
  | presenceSync (users : List PresenceUser)
deriving DecidableEq

/-- The row-insert handler's message construction:
`{ ...payload.new, profiles: profile || undefined }`. -/
def attachProfile (m : Message) (p : Option Profile) : Message :=
  { m with profiles := p }

/-- One step of the channel handlers of `useSocialChat`:
* row-insert: `setMessages(prev => [...prev, newMessage])` — an
  unconditional append;
* `typing` broadcast: ignored for self, otherwise insert into the
  typing set only if the user id is not already present
  (`if (!prev.find(u => u.userId === payload.userId))`), or filter the
  user out when `isTyping` is false;
* presence `sync`: replace the online set wholesale. -/
def applyEvent (selfId : String) (st : SessionState) : ChannelEvent → SessionState
  | .rowInsert payload profile =>
    { st with messages := st.messages ++ [attachProfile payload profile] }
  | .typing uid uname isTyping =>
    if uid = selfId then st
    else if isTyping then
      { st with typingUsers :=
          if (st.typingUsers.find? (fun u => u.userId == uid)).isSome then
            st.typingUsers
          else
            st.typingUsers ++ [⟨uid, uname⟩] }
    else
      { st with typingUsers := st.typingUsers.filter (fun u => !(u.userId == uid)) }
  | .presenceSync users =>
    { st with onlineUsers := users }

/-- Deliver a sequence of channel events to the session. -/
def applyEvents (selfId : String) (st : SessionState) (events : List ChannelEvent) : SessionState :=
  events.foldl (applyEvent selfId) st

/-- Deliver a sequence of row-insert events (each with its resolved
profile) to the in-memory message list. -/
def deliverInserts (init : List Message) (events : List (Message × Option Profile)) : List Message :=
  events.foldl (fun acc e => acc ++ [attachProfile e.1 e.2]) init

/-- Ascending order on the server-assigned creation timestamp, the
`ORDER BY created_at ASC` of the initial fetch. -/
def byCreatedAt (a b : Message) : Prop :=
  a.created_at ≤ b.created_at

instance : DecidableRel byCreatedAt := fun a b =>
  inferInstanceAs (Decidable (a.created_at ≤ b.created_at))

/-- Embedding of `fetchMessages` of `useSocialChat`: select the rows of
the room, order by `created_at` ascending, and keep the first 100
(`.order('created_at', { ascending: true }).limit(100)`). -/
def fetchMessages (roomId : String) (persisted : List Message) : List Message :=
  (List.insertionSort byCreatedAt (persisted.filter (fun m => m.room_id == roomId))).take 100

/-! ## `sendMessage` of `useSocialChat` -/

/-- A row handed to `supabase.from('messages').insert`. -/
structure InsertRow where
  room_id : String
  user_id : String
  content : String
deriving DecidableEq

/-- What one call of the hook's `sendMessage` did:
* `rejected` — the guard `if (!roomId || !userId || !content.trim()) return;`
  fired: no network call at all;
* `inserted` — the row was inserted;
* `dbFailed` — the insert came back with an error, which `sendMessage`
  rethrows.  `dbError` is the backend's answer for this insert attempt. -/
inductive SendResult where
  | rejected
  | inserted (row : InsertRow)
  | dbFailed (e : String)
deriving DecidableEq

/-- Embedding of `sendMessage(content)` of `useSocialChat`.  The insert
payload is `{ room_id, user_id, content: content.trim() }`. -/
def sendMessage (roomId userId : Option String) (content : String)
    (dbError : Option String) : SendResult :=
  match roomId, userId with
  | some r, some u =>
    if trimStr content = "" then .rejected
    else
      match dbError with
      | some e => .dbFailed e
      | none => .inserted ⟨r, u, trimStr content⟩
  | _, _ => .rejected

/-- The rows actually persisted by one `sendMessage` call. -/
def insertedRows (s : SendResult) : List InsertRow :=
  match s with
  | .inserted row => [row]
  | _ => []

/-- What the caller of `sendMessage` observes: the promise resolves
normally both when the guard rejects the call and when the insert
succeeds; only a database error is thrown. -/
def sendMessageObservable (roomId userId : Option String) (content : String)
    (dbError : Option String) : Except String Unit :=
  match sendMessage roomId userId content dbError with
  | .rejected => .ok ()
  | .inserted _ => .ok ()
  | .dbFailed e => .error e

/-- `sendMessage` seen at the session level: the call performs only the
network insert — the source closure references none of the state
setters of `useSocialChat`, so the session state is carried through
untouched. -/
def sendMessageOp (st : SessionState) (roomId userId : Option String)
    (content : String) (dbError : Option String) : SessionState × SendResult :=
  (st, sendMessage roomId userId content dbError)

/-! ## AI-Trigger Dispatcher (`SocialChatScreen.tsx`) -/

/-- The unused bot-identity constant `AI_USER_ID` of
`SocialChatScreen.tsx`. -/
def AI_USER_ID : String := "vortex-ai-bot"

/-- The fixed trigger set `AI_TRIGGERS`. -/
def AI_TRIGGERS : List String := ["@vortex-flash", "@vortex-pro", "@vortex-code"]

/-- A model entry of `VORTEX_MODELS` in `config/api.ts` (only the
fields the dispatcher reads). -/
structure ModelInfo where
  id : String
  name : String
  apiModel : String
deriving DecidableEq

/-- The `VORTEX_MODELS` catalogue of `config/api.ts`. -/
def VORTEX_MODELS : List ModelInfo :=
  [⟨"vortex-flash", "Vortex Flash", "gemini-1.5-flash"⟩,
   ⟨"vortex-pro", "Vortex Pro", "gemini-1.5-pro"⟩,
   ⟨"vortex-code", "Vortex Code", "gemini-2.0-flash"⟩]

/-- The display name of a model:
`VORTEX_MODELS.find(m => m.id === modelId)?.name || 'Vortex AI'`. -/
def aiNameFor (modelId : String) : String :=
  jsOr ((VORTEX_MODELS.find? (fun m => m.id == modelId)).map ModelInfo.name) "Vortex AI"

/-- The bot message format of `handleAiResponse`:
`` `🤖 ${aiName}:\n\n${result.response}` ``. -/
def formatAiResponse (modelId response : String) : String :=
  "🤖 " ++ aiNameFor modelId ++ ":\n\n" ++ response

/-- The trigger loop of `detectAiTrigger`: walk the trigger list; on a
case-insensitive prefix match take the remainder after the trigger,
trimmed, as the query, and accept only if it is nonempty (otherwise the
loop continues with the remaining triggers). -/
def findTrigger (text lower : String) : List String → Option (String × String)
  | [] => none
  | t :: rest =>
    if startsWithList t.data lower.data then
      let query := trimStr (dropStr text t.length)
      if query = "" then findTrigger text lower rest
      else some (String.mk (removeFirstAtList t.data), query)
    else findTrigger text lower rest

/-- Embedding of `detectAiTrigger(text)`: returns the model id (trigger
without its `'@'`) and the nonempty trimmed query, or `none`. -/
def detectAiTrigger (text : String) : Option (String × String) :=
  findTrigger text (toLowerStr text) AI_TRIGGERS

/-- The answer of `sendChatMessage` in `config/api.ts`:
`{ success, response?, error? }`.  The function never throws — every
transport failure (HTTP error, timeout/abort) is caught internally and
returned as `success: false` with an error string. -/
structure ChatResult where
  success : Bool
  response : Option String
  error : Option String
deriving DecidableEq

/-- Embedding of `handleAiResponse(modelId, query)` of
`SocialChatScreen.tsx`.  `result` is the completion service's answer
for `(query, modelId)`, `dbError` the backend's answer to the follow-up
insert.  Returns the list of rows the dispatcher published and the
alert surfaced to the UI, if any:
* `result.success && result.response` truthy (success with a nonempty
  response): publish via `sendMessage(formatted)`; a thrown insert
  error is caught and surfaced as `'Tidak dapat terhubung ke AI'`;
* otherwise: alert `result.error || 'Gagal mendapatkan respons AI'`
  and publish nothing. -/
def handleAiResponse (roomId userId : Option String) (modelId : String)
    (query : String) (result : ChatResult) (dbError : Option String) :
    List InsertRow × Option String :=
  match result.success, result.response with
  | true, some resp =>
    if resp = "" then
      ([], some (jsOr result.error "Gagal mendapatkan respons AI"))
    else
      match sendMessage roomId userId (formatAiResponse modelId resp) dbError with
      | .inserted row => ([row], none)
      | .rejected => ([], none)
      | .dbFailed _ => ([], some "Tidak dapat terhubung ke AI")
  | _, _ => ([], some (jsOr result.error "Gagal mendapatkan respons AI"))

/-- Everything one `handleSend` call did: the rows inserted by the
user's own send, the rows published by the AI dispatcher, whether the
completion service was called, the alerts surfaced, and whether the
`/digest` modal was opened instead of sending. -/
structure SendOutcome where
  userRows : List InsertRow
  aiRows : List InsertRow
  completionCalled : Bool
  alerts : List String
  digestModalOpened : Bool
deriving DecidableEq

/-- Embedding of `handleSend` of `SocialChatScreen.tsx`:
* return silently if the input trims to empty;
* intercept the `/digest` slash command;
* otherwise send the user's message; a thrown insert error is caught
  (`'Gagal mengirim pesan'`) and skips the AI dispatch;
* if `detectAiTrigger` matched, run `handleAiResponse` (the completion
  call happens in both its success and failure branches).
`comp` is the completion service's answer, `dbUser`/`dbAi` the
backend's answers for the two possible inserts. -/
def handleSend (roomId userId : Option String) (input : String)
    (comp : ChatResult) (dbUser dbAi : Option String) : SendOutcome :=
  if trimStr input = "" then ⟨[], [], false, [], false⟩
  else if toLowerStr (trimStr input) = "/digest" then ⟨[], [], false, [], true⟩
  else
    match sendMessage roomId userId input dbUser with
    | .dbFailed _ => ⟨[], [], false, ["Gagal mengirim pesan"], false⟩
    | .rejected =>
      match detectAiTrigger input with
      | some (mid, q) =>
        let res := handleAiResponse roomId userId mid q comp dbAi
        ⟨[], res.1, true, res.2.toList, false⟩
      | none => ⟨[], [], false, [], false⟩
    | .inserted row =>
      match detectAiTrigger input with
      | some (mid, q) =>
        let res := handleAiResponse roomId userId mid q comp dbAi
        ⟨[row], res.1, true, res.2.toList, false⟩
      | none => ⟨[row], [], false, [], false⟩

/-- The sender-name fallback of `renderMessage`:
`item.profiles?.username || item.user_id?.slice(0, 8) || 'User'`. -/
def renderSenderName (profiles : Option Profile) (userId : Option String) : String :=
  jsOr (profiles.map Profile.username) (jsOr (userId.map (fun s => takeStr s 8)) "User")

/-! ## Global Notification Listener (`GlobalChatListener.tsx`) -/

/-- The two notification classes the listener raises. -/
inductive NotifKind where
  | digest
  | chat
deriving DecidableEq

/-- A local notification: title, body, and the routing payload's kind
and room id. -/
structure Notification where
  title : String
  body : String
  kind : NotifKind
  roomId : String
deriving DecidableEq

/-- The digest sentinel content test of the listener:
`newMessage.content.startsWith('📰 DIGEST:')`. -/
def digestTagged (content : String) : Bool :=
  startsWithList ("📰 DIGEST:").data content.data

/-- Embedding of the insert handler of `GlobalChatListener.tsx`:
1. discard if the author is the observing user;
2. discard if the room is not in the membership snapshot;
3. digest-sentinel content raises a digest notification;
4. otherwise a chat notification whose title is the best-effort sender
   name, `sender?.username || 'Someone'`.
`sender` is the result of the profile lookup for the author. -/
def globalChatHandle (selfId : String) (rooms : List Room) (msg : Message)
    (sender : Option String) : Option Notification :=
  if msg.user_id = selfId then none
  else
    match rooms.find? (fun r => r.id == msg.room_id) with
    | none => none
    | some room =>
      if digestTagged msg.content then
        some ⟨"News Digest Ready! 📰",
              "Digest baru di " ++ room.name ++ " sudah siap.",
              .digest, msg.room_id⟩
      else
        some ⟨jsOr sender "Someone", msg.content, .chat, msg.room_id⟩

/-! ## Helper lemmas -/

/-- Appending a non-whitespace character is transparent to
`dropWhile isWS`. -/
theorem dropWhile_append_nonWS (l : List Char) (c : Char) (hc : isWS c = false) :
    (l ++ [c]).dropWhile isWS = l.dropWhile isWS ++ [c] := by
  induction l with
  | nil => simp [List.dropWhile, hc]
  | cons a as ih =>
    by_cases h : isWS a
    · simpa [List.dropWhile, h] using ih
    · simp [List.dropWhile, h]

/-- Trimming a list that starts with a non-whitespace character keeps
that character in front. -/
theorem trimList_cons_nonWS (c : Char) (l : List Char) (hc : isWS c = false) :
    trimList (c :: l) = c :: (l.reverse.dropWhile isWS).reverse := by
  unfold trimList
  rw [show (c :: l).dropWhile isWS = c :: l by simp [List.dropWhile, hc],
    List.reverse_cons, dropWhile_append_nonWS _ _ hc, List.reverse_append]
  simp

/-- The data of an appended string is the appended data. -/
theorem strData_append (a b : String) : (a ++ b).data = a.data ++ b.data := rfl

/-- The formatted bot message starts with the `'🤖'` sentinel
character. -/
theorem formatAiResponse_data (modelId resp : String) :
    ∃ tl, (formatAiResponse modelId resp).data = '🤖' :: tl := by
  refine ⟨' ' :: ((aiNameFor modelId).data ++ ((":\n\n" : String).data ++ resp.data)), ?_⟩
  unfold formatAiResponse
  simp only [strData_append, List.append_assoc]
  rfl

/-- After trimming, the formatted bot message still starts with the
sentinel character (the trim guard of `sendMessage` therefore passes
and the persisted content carries the sentinel). -/
theorem trim_formatAiResponse_starts (modelId resp : String) :
    startsWithChar (trimStr (formatAiResponse modelId resp)) '🤖' = true := by
  obtain ⟨tl, hdata⟩ := formatAiResponse_data modelId resp
  unfold startsWithChar trimStr
  simp only [hdata, trimList_cons_nonWS '🤖' tl rfl]
  rfl

/-- The trimmed formatted bot message is nonempty. -/
theorem trim_formatAiResponse_ne_empty (modelId resp : String) :
    trimStr (formatAiResponse modelId resp) ≠ "" := by
  intro h
  have h2 := trim_formatAiResponse_starts modelId resp
  rw [h] at h2
  exact absurd h2 (by decide)

/-- Delivering row-insert events is a fold of plain appends, so the
resulting list is the initial page followed by the delivered events in
delivery order — no reordering and no de-duplication happen. -/
theorem deliverInserts_eq_append (events : List (Message × Option Profile)) :
    ∀ init, deliverInserts init events
      = init ++ events.map (fun e => attachProfile e.1 e.2) := by
  induction events with
  | nil => intro init; simp [deliverInserts]
  | cons e es ih =>
    intro init
    show deliverInserts (init ++ [attachProfile e.1 e.2]) es = _
    rw [ih (init ++ [attachProfile e.1 e.2]), List.append_assoc]
    rfl

/-- C1 (counterexample): delivering the same row-insert event twice is
not a no-op repeat — the handler appends unconditionally, so the list
ends with two entries carrying the same id, and differs from the list
obtained by delivering the event once. -/
theorem c1_duplicate_insert_counterexample :
    deliverInserts [] [(⟨"m1", "room1", "alice", "hi", 1, none⟩, none),
                       (⟨"m1", "room1", "alice", "hi", 1, none⟩, none)]
      ≠ deliverInserts [] [(⟨"m1", "room1", "alice", "hi", 1, none⟩, none)] ∧
    ¬ messageIdsNodup
        (deliverInserts [] [(⟨"m1", "room1", "alice", "hi", 1, none⟩, none),
                            (⟨"m1", "room1", "alice", "hi", 1, none⟩, none)]) := by
  constructor
  · decide
  · unfold messageIdsNodup
    decide

/-- C1 (amended): the row-insert handler appends each delivered event,
in delivery order, to the end of the in-memory list
(`setMessages(prev => [...prev, newMessage])`); therefore, when the
initial page followed by the delivered events is strictly increasing in
`(created_at, id)` and carries no duplicate id, the resulting list is
sorted by `(created_at, id)` with no duplicate ids — but a repeated
delivery of an id already in the list is appended again, not treated as
a no-op (see the counterexample). -/
theorem c1_insert_order_invariant (init : List Message)
    (events : List (Message × Option Profile))
    (hsort : sortedByKey (init ++ events.map (fun e => attachProfile e.1 e.2)) = true)
    (hids : messageIdsNodup (init ++ events.map (fun e => attachProfile e.1 e.2))) :
    deliverInserts init events = init ++ events.map (fun e => attachProfile e.1 e.2) ∧
    sortedByKey (deliverInserts init events) = true ∧
    messageIdsNodup (deliverInserts init events) := by
  have h := deliverInserts_eq_append events init
  exact ⟨h, by rw [h]; exact hsort, by rw [h]; exact hids⟩

/-- C1 witness: the amended theorem applied to a concrete page of one
message and two fresh in-order insert events. -/
theorem c1_insert_order_invariant_witness :
    deliverInserts [⟨"a", "r", "u1", "x", 1, none⟩]
        [(⟨"b", "r", "u2", "y", 2, none⟩, none), (⟨"c", "r", "u1", "z", 2, none⟩, none)]
      = [⟨"a", "r", "u1", "x", 1, none⟩, ⟨"b", "r", "u2", "y", 2, none⟩,
         ⟨"c", "r", "u1", "z", 2, none⟩] ∧
    sortedByKey (deliverInserts [⟨"a", "r", "u1", "x", 1, none⟩]
        [(⟨"b", "r", "u2", "y", 2, none⟩, none), (⟨"c", "r", "u1", "z", 2, none⟩, none)]) = true ∧
    messageIdsNodup (deliverInserts [⟨"a", "r", "u1", "x", 1, none⟩]
        [(⟨"b", "r", "u2", "y", 2, none⟩, none), (⟨"c", "r", "u1", "z", 2, none⟩, none)]) := by
  have h := c1_insert_order_invariant [⟨"a", "r", "u1", "x", 1, none⟩]
    [(⟨"b", "r", "u2", "y", 2, none⟩, none), (⟨"c", "r", "u1", "z", 2, none⟩, none)]
    (by decide) (by unfold messageIdsNodup; decide)
  exact ⟨by rw [h.1]; decide, h.2.1, h.2.2⟩

/-- Any single channel event preserves duplicate-freedom of the typing
set's user ids: the `typing` handler inserts only when
`prev.find(u => u.userId === payload.userId)` comes back empty, removal
is a filter, and the other two event classes leave the set alone. -/
theorem typing_ids_nodup_step (selfId : String) (st : SessionState) (e : ChannelEvent)
    (h : (st.typingUsers.map TypingUser.userId).Nodup) :
    ((applyEvent selfId st e).typingUsers.map TypingUser.userId).Nodup := by
  cases e with
  | rowInsert payload profile => simpa [applyEvent] using h
  | presenceSync users => simpa [applyEvent] using h
  | typing uid uname isTyping =>
    by_cases hself : uid = selfId
    · simpa [applyEvent, hself] using h
    · cases isTyping with
      | false =>
        simp only [applyEvent, hself, if_neg, if_false, Bool.false_eq_true, ite_false]
        exact h.sublist ((st.typingUsers.filter_sublist).map TypingUser.userId)
      | true =>
        simp only [applyEvent, hself, ite_false, ite_true, Bool.true_eq_false]
        by_cases hfind : (st.typingUsers.find? (fun u => u.userId == uid)).isSome
        · simpa [hfind] using h
        · have hnone : st.typingUsers.find? (fun u => u.userId == uid) = none :=
            Option.not_isSome_iff_eq_none.mp hfind
          have hnotin : uid ∉ st.typingUsers.map TypingUser.userId := by
            intro hmem
            obtain ⟨u, hu, hequ⟩ := List.mem_map.mp hmem
            have := List.find?_eq_none.mp hnone u hu
            simp [hequ] at this
          simp only [hfind, ite_false, Bool.false_eq_true, List.map_append,
            List.nodup_append]
          exact ⟨h, List.nodup_singleton uid, by
            intro a ha hb
            simp only [List.map_cons, List.map_nil, List.mem_singleton] at hb
            exact hnotin (hb ▸ ha)⟩

/-- C10: the typing set holds at most one entry per user id.  Starting
from a state whose typing user ids are duplicate-free, (a) any sequence
of delivered channel events leaves them duplicate-free, and (b) a
repeated `isTyping = true` broadcast for a user id already in the set is
a no-op on the whole session state. -/
theorem c10_typing_set_dedup (selfId : String) (st : SessionState)
    (h : (st.typingUsers.map TypingUser.userId).Nodup) :
    (∀ events : List ChannelEvent,
      ((applyEvents selfId st events).typingUsers.map TypingUser.userId).Nodup) ∧
    (∀ uid uname, uid ∈ st.typingUsers.map TypingUser.userId →
      applyEvent selfId st (.typing uid uname true) = st) := by
  constructor
  · intro events
    induction events generalizing st with
    | nil => exact h
    | cons e es ih =>
      exact ih (applyEvent selfId st e) (typing_ids_nodup_step selfId st e h)
  · intro uid uname hmem
    obtain ⟨u, hu, hequ⟩ := List.mem_map.mp hmem
    have hfind : (st.typingUsers.find? (fun w => w.userId == uid)).isSome :=
      List.find?_isSome.mpr ⟨u, hu, by simp [hequ]⟩
    by_cases hself : uid = selfId
    · simp [applyEvent, hself]
    · simp [applyEvent, hself, hfind]

/-- C10 witness: the theorem applied to a session with one typing user;
a repeated `typing(true)` broadcast for that user changes nothing, and
a concrete event mix keeps the ids duplicate-free. -/
theorem c10_typing_set_dedup_witness :
    ((applyEvents "self" ⟨[], [⟨"u1", "Ana"⟩], []⟩
        [.typing "u1" "Ana" true, .typing "u2" "Bo" true,
         .typing "u1" "Ana" true, .typing "u2" "Bo" false]).typingUsers.map
          TypingUser.userId).Nodup ∧
    applyEvent "self" ⟨[], [⟨"u1", "Ana"⟩], []⟩ (.typing "u1" "Ana" true)
      = ⟨[], [⟨"u1", "Ana"⟩], []⟩ := by
  have h := c10_typing_set_dedup "self" ⟨[], [⟨"u1", "Ana"⟩], []⟩ (by decide)
  exact ⟨h.1 _, h.2 "u1" "Ana" (by decide)⟩

/-- A persisted message of the example room: id and timestamp both
derived from the index `i`. -/
def mkMsg (i : Nat) : Message :=
  ⟨Nat.repr i, "room1", "alice", "hello", i, none⟩

/-- A room with 101 persisted messages, timestamps 0 to 100. -/
def persisted101 : List Message :=
  (List.range 101).map mkMsg

/-- C2 (code behaviour at the failing input): on a room holding 101
messages, `fetchMessages` — which orders ascending and then applies the
limit — returns the 100 *oldest* messages: the page is exactly the
messages with timestamps 0 to 99, and the newest message (timestamp
100, the maximum of the room) is not in the page.  The specified
behaviour is a page of the 100 most recent messages. -/
theorem c2_fetch_oldest_page :
    fetchMessages "room1" persisted101 = (List.range 100).map mkMsg ∧
    mkMsg 100 ∉ fetchMessages "room1" persisted101 ∧
    (∀ m ∈ persisted101, m.created_at ≤ (mkMsg 100).created_at) ∧
    mkMsg 100 ∈ persisted101 := by
  refine ⟨by decide, by decide, by decide, by decide⟩

/-- C3: on a successful completion (`success` with a nonempty
response), the dispatcher publishes exactly one message — via the same
`sendMessage` as any user message — whose content is the trimmed
sentinel-prefixed format (so it still starts with the `'🤖'` sentinel)
and whose author is the triggering human's own user id; the unused bot
identity `AI_USER_ID` never becomes the author, and no error is
surfaced. -/
theorem c3_ai_success_publishes_as_self (r u modelId query resp : String)
    (e : Option String) (hresp : resp ≠ "") (hu : u ≠ AI_USER_ID) :
    handleAiResponse (some r) (some u) modelId query ⟨true, some resp, e⟩ none
      = ([⟨r, u, trimStr (formatAiResponse modelId resp)⟩], none) ∧
    startsWithChar (trimStr (formatAiResponse modelId resp)) '🤖' = true ∧
    (InsertRow.mk r u (trimStr (formatAiResponse modelId resp))).user_id ≠ AI_USER_ID := by
  have hne := trim_formatAiResponse_ne_empty modelId resp
  refine ⟨?_, trim_formatAiResponse_starts modelId resp, hu⟩
  simp [handleAiResponse, hresp, sendMessage, hne]

/-- C3 witness: a concrete successful `@vortex-code` completion
published as the sender's own message. -/
theorem c3_ai_success_publishes_as_self_witness :
    handleAiResponse (some "room1") (some "alice") "vortex-code" "write a for loop"
        ⟨true, some "for i in range(3): pass", none⟩ none
      = ([⟨"room1", "alice",
           trimStr (formatAiResponse "vortex-code" "for i in range(3): pass")⟩], none) ∧
    startsWithChar (trimStr (formatAiResponse "vortex-code" "for i in range(3): pass")) '🤖'
      = true := by
  have h := c3_ai_success_publishes_as_self "room1" "alice" "vortex-code"
    "write a for loop" "for i in range(3): pass" none (by decide) (by decide)
  exact ⟨h.1, h.2.1⟩

/-- C5: whenever the completion call fails — `success: false` (service
error, timeout/abort, network failure: `sendChatMessage` catches every
thrown exception and returns this shape) or a missing/empty response —
the dispatcher publishes nothing and surfaces an alert to the UI. -/
theorem c5_ai_failure_publishes_nothing (roomId userId : Option String)
    (modelId query : String) (result : ChatResult) (dbe : Option String)
    (hfail : result.success = false ∨ result.response = none ∨ result.response = some "") :
    (handleAiResponse roomId userId modelId query result dbe).1 = [] ∧
    (handleAiResponse roomId userId modelId query result dbe).2.isSome = true := by
  obtain ⟨s, resp, err⟩ := result
  rcases hfail with h | h | h
  · simp only at h
    subst h
    cases resp <;> simp [handleAiResponse]
  · simp only at h
    subst h
    cases s <;> simp [handleAiResponse]
  · simp only at h
    subst h
    cases s <;> simp [handleAiResponse]

/-- C5 witness: a concrete timeout answer publishes nothing and raises
an alert. -/
theorem c5_ai_failure_publishes_nothing_witness :
    (handleAiResponse (some "room1") (some "alice") "vortex-flash" "hi"
        ⟨false, none, some "Request timeout. Coba lagi."⟩ none).1 = [] ∧
    (handleAiResponse (some "room1") (some "alice") "vortex-flash" "hi"
        ⟨false, none, some "Request timeout. Coba lagi."⟩ none).2.isSome = true :=
  c5_ai_failure_publishes_nothing (some "room1") (some "alice") "vortex-flash" "hi"
    ⟨false, none, some "Request timeout. Coba lagi."⟩ none (Or.inl rfl)

/-- The trigger loop returns nothing when every matching trigger leaves
an empty trimmed remainder. -/
theorem findTrigger_none_of_empty_queries (text lower : String) (ts : List String)
    (h : ∀ t ∈ ts, startsWithList t.data lower.data = true →
      trimStr (dropStr text t.length) = "") :
    findTrigger text lower ts = none := by
  induction ts with
  | nil => rfl
  | cons t rest ih =>
    have ihr := ih (fun t' ht' hp => h t' (List.mem_cons_of_mem t ht') hp)
    unfold findTrigger
    by_cases hp : startsWithList t.data lower.data = true
    · have hq := h t (List.mem_cons_self t rest) hp
      simp [hp, hq, ihr]
    · simp [hp, ihr]

/-- C4: an outgoing message that starts (case-insensitively) with an AI
trigger but whose remainder trims to empty produces no trigger match,
so `handleSend` never calls the completion service and the dispatcher
publishes no bot message — whatever the room, user, service answer or
backend answers are. -/
theorem c4_bare_trigger_no_dispatch (text : String)
    (htrig : ∃ t ∈ AI_TRIGGERS, startsWithList t.data (toLowerStr text).data = true)
    (hempty : ∀ t ∈ AI_TRIGGERS, startsWithList t.data (toLowerStr text).data = true →
      trimStr (dropStr text t.length) = "") :
    detectAiTrigger text = none ∧
    ∀ (roomId userId : Option String) (comp : ChatResult) (dbUser dbAi : Option String),
      (handleSend roomId userId text comp dbUser dbAi).completionCalled = false ∧
      (handleSend roomId userId text comp dbUser dbAi).aiRows = [] := by
  have hdet : detectAiTrigger text = none :=
    findTrigger_none_of_empty_queries text (toLowerStr text) AI_TRIGGERS hempty
  refine ⟨hdet, ?_⟩
  intro roomId userId comp dbUser dbAi
  unfold handleSend
  by_cases h1 : trimStr text = ""
  · simp [h1]
  · by_cases h2 : toLowerStr (trimStr text) = "/digest"
    · simp [h1, h2]
    · simp only [h1, h2, if_false, ite_false]
      cases sendMessage roomId userId text dbUser <;> simp [hdet]

/-- C4 witness: `"@vortex-flash   "` (trigger plus whitespace) matches
a trigger, dispatches nothing and publishes no bot row. -/
theorem c4_bare_trigger_no_dispatch_witness :
    detectAiTrigger "@vortex-flash   " = none ∧
    (handleSend (some "room1") (some "alice") "@vortex-flash   "
        ⟨true, some "ok", none⟩ none none).completionCalled = false ∧
    (handleSend (some "room1") (some "alice") "@vortex-flash   "
        ⟨true, some "ok", none⟩ none none).aiRows = [] := by
  have h := c4_bare_trigger_no_dispatch "@vortex-flash   "
    (by decide) (by decide)
  exact ⟨h.1, (h.2 (some "room1") (some "alice") ⟨true, some "ok", none⟩ none none).1,
    (h.2 (some "room1") (some "alice") ⟨true, some "ok", none⟩ none none).2⟩

/-- C6: an insert whose author is the observing user raises no
notification, for any membership snapshot, content and profile-lookup
outcome — the listener returns before any other check. -/
theorem c6_no_self_notification (selfId : String) (rooms : List Room)
    (msg : Message) (sender : Option String) (h : msg.user_id = selfId) :
    globalChatHandle selfId rooms msg sender = none := by
  simp [globalChatHandle, h]

/-- C6 witness: a concrete self-authored digest-tagged message in a
joined room still raises nothing. -/
theorem c6_no_self_notification_witness :
    globalChatHandle "alice" [⟨"room1", "Lobby"⟩]
        ⟨"m1", "room1", "alice", "📰 DIGEST:\x7b\x7d", 5, none⟩ (some "Alice") = none :=
  c6_no_self_notification "alice" [⟨"room1", "Lobby"⟩]
    ⟨"m1", "room1", "alice", "📰 DIGEST:\x7b\x7d", 5, none⟩ (some "Alice") rfl

/-- C7 (counterexample): sending whitespace-only text is rejected
before any network call and inserts nothing — but nothing is surfaced:
the call resolves with the same plain success value `.ok ()` that a
successful insert produces, so the caller cannot observe the
rejection. -/
theorem c7_silent_rejection_counterexample :
    sendMessage (some "room1") (some "alice") "   " none = .rejected ∧
    insertedRows (sendMessage (some "room1") (some "alice") "   " none) = [] ∧
    sendMessageObservable (some "room1") (some "alice") "   " none = .ok () ∧
    sendMessageObservable (some "room1") (some "alice") "hello" none = .ok () :=
  ⟨rfl, rfl, rfl, rfl⟩

/-- C7 (amended): a `sendMessage` call whose text trims to empty is
rejected by the guard before any network call — no row is inserted and
the state is untouched — but the rejection is silent: the call returns
normally, surfacing nothing that distinguishes it from a successful
send. -/
theorem c7_empty_text_rejected_silently (roomId userId : Option String)
    (content : String) (dbe : Option String) (h : trimStr content = "") :
    sendMessage roomId userId content dbe = .rejected ∧
    insertedRows (sendMessage roomId userId content dbe) = [] ∧
    sendMessageObservable roomId userId content dbe = .ok () := by
  have hs : sendMessage roomId userId content dbe = .rejected := by
    rcases roomId with _ | r <;> rcases userId with _ | u <;> simp [sendMessage, h]
  exact ⟨hs, by simp [insertedRows, hs], by simp [sendMessageObservable, hs]⟩

/-- C7 witness: the amended theorem at a tab-and-spaces input. -/
theorem c7_empty_text_rejected_silently_witness :
    sendMessage (some "room1") (some "alice") " \t " none = .rejected ∧
    insertedRows (sendMessage (some "room1") (some "alice") " \t " none) = [] ∧
    sendMessageObservable (some "room1") (some "alice") " \t " none = .ok () :=
  c7_empty_text_rejected_silently (some "room1") (some "alice") " \t " none (by decide)

/-- C8: `sendMessage` is frame-preserving on the session — the call
returns the state it was given, unchanged in all three components
(messages, typing set, online set) — and the sender's message reaches
the in-memory list only through the row-insert event path, which
appends it like any other client's message and touches nothing else. -/
theorem c8_send_does_not_mutate_session (st : SessionState)
    (roomId userId : Option String) (content : String) (dbe : Option String)
    (selfId : String) (payload : Message) (profile : Option Profile) :
    (sendMessageOp st roomId userId content dbe).1 = st ∧
    applyEvent selfId st (.rowInsert payload profile)
      = { st with messages := st.messages ++ [attachProfile payload profile] } :=
  ⟨rfl, rfl⟩

/-- C9 (counterexample): in the Global Notification Listener, a failed
author-profile lookup is swallowed — the chat notification is still
raised — but its title falls back to the constant `"Someone"`, which is
not a truncated form of the author's user id (it is not even a prefix
of it). -/
theorem c9_listener_someone_counterexample :
    globalChatHandle "alice" [⟨"room1", "Lobby"⟩]
        ⟨"m1", "room1", "bob-1234567890", "hi", 5, none⟩ none
      = some ⟨"Someone", "hi", .chat, "room1"⟩ ∧
    "Someone" ≠ takeStr "bob-1234567890" 8 ∧
    startsWithList ("Someone").data ("bob-1234567890").data = false := by
  refine ⟨rfl, by decide, by decide⟩

/-- C9 (amended): a failed author-profile lookup never blocks delivery
or notification dispatch; the fallback display is the first 8
characters of the author's user id in the room screen
(`renderMessage`), but the constant `"Someone"` in the Global
Notification Listener's chat notifications. -/
theorem c9_profile_fallbacks (selfId : String) (rooms : List Room) (msg : Message)
    (room : Room) (uid : String)
    (hself : msg.user_id ≠ selfId)
    (hroom : rooms.find? (fun r => r.id == msg.room_id) = some room)
    (hnod : digestTagged msg.content = false)
    (huid : uid ≠ "") :
    globalChatHandle selfId rooms msg none
      = some ⟨"Someone", msg.content, .chat, msg.room_id⟩ ∧
    renderSenderName none (some uid) = takeStr uid 8 := by
  constructor
  · simp [globalChatHandle, hself, hroom, hnod, jsOr]
  · have hdata : uid.data ≠ [] := by
      intro hnil
      apply huid
      cases uid with
      | mk l =>
        simp only at hnil
        subst hnil
        rfl
    obtain ⟨c, cs, hcs⟩ := List.exists_cons_of_ne_nil hdata
    have hne : takeStr uid 8 ≠ "" := by
      unfold takeStr
      rw [hcs]
      intro hcontr
      simpa using congrArg String.data hcontr
    simp [renderSenderName, jsOr, hne]

/-- C9 witness: the amended theorem at a concrete message with a failed
lookup, and a concrete user id truncated to 8 characters. -/
theorem c9_profile_fallbacks_witness :
    globalChatHandle "alice" [⟨"room2", "Dev"⟩]
        ⟨"m2", "room2", "carol-9876543210", "yo", 7, none⟩ none
      = some ⟨"Someone", "yo", .chat, "room2"⟩ ∧
    renderSenderName none (some "carol-9876543210") = takeStr "carol-9876543210" 8 := by
  have h := c9_profile_fallbacks "alice" [⟨"room2", "Dev"⟩]
    ⟨"m2", "room2", "carol-9876543210", "yo", 7, none⟩ ⟨"room2", "Dev"⟩
    "carol-9876543210" (by decide) (by decide) (by decide) (by decide)
  exact h
